import Mathlib

/-!
The chemicalite bit-packing codec, structure comparator and fingerprint callables.

A shallow embedding of `src/rdkit_adapter.cpp` and `src/bitstring.c`.

* C `int` and `unsigned int` values are `Int` and `Nat`; the conversion of an
  `unsigned int` to `int` and unsigned subtraction wrap modulo `2 ^ 32`.
* `u8` buffers are lists of naturals below 256.
* `double` values are rationals; `.5` is the rational one half.  The inputs used
  in evaluations are small integers and halves, on which binary64 arithmetic is exact.
* The chemistry toolkit, the host database engine and the adapter functions that
  `bitstring.c` calls but that are declared in headers outside `src/` are parameters.
* Every callable returns a `Run`: the external steps it invoked, in order, and the
  `sqlite3_result_*` calls it made on the host context, in order.
-/

namespace Chemicalite

/-! ## Host engine constants and values -/

def SQLITE_OK : Int := 0
def SQLITE_ERROR : Int := 1
def SQLITE_NOMEM : Int := 7
def SQLITE_MISMATCH : Int := 20

def SQLITE_INTEGER : Int := 1
def SQLITE_FLOAT : Int := 2
def SQLITE_TEXT : Int := 3
def SQLITE_BLOB : Int := 4
def SQLITE_NULL : Int := 5

/-- A host argument value with its host-level type.  The payload of `integer` is the
C `int` that `sqlite3_value_int` reads from it. -/
inductive sqlite3_value where
  | integer (i : Int)
  | float (f : ℚ)
  | text (s : String)
  | blob (b : List Nat)
  | null
deriving DecidableEq

def sqlite3_value_type : sqlite3_value → Int
  | .integer _ => SQLITE_INTEGER
  | .float _ => SQLITE_FLOAT
  | .text _ => SQLITE_TEXT
  | .blob _ => SQLITE_BLOB
  | .null => SQLITE_NULL

/-- Size in bytes of a blob or text value; the source only asks for it on blobs. -/
def sqlite3_value_bytes : sqlite3_value → Int
  | .blob b => (b.length : Int)
  | .text s => (s.utf8ByteSize : Int)
  | _ => 0

/-- Bytes of a blob value; the source only asks for them on blobs. -/
def sqlite3_value_blob : sqlite3_value → List Nat
  | .blob b => b
  | _ => []

/-- Integer reading of a host value.  On a value that is not an INTEGER the host
engine coerces; that coercion is the parameter `coerce`. -/
def sqlite3_value_int (coerce : sqlite3_value → Int) : sqlite3_value → Int
  | .integer i => i
  | v => coerce v

/-- State of the host allocator: which request sizes it can serve, and the
uninitialised content of a fresh block. -/
structure Heap where
  avail : Int → Bool
  junk : Nat → Nat

/-- Host allocator `sqlite3_malloc(n)`: a null pointer (`none`) when `n` is zero or
negative or when memory is exhausted, otherwise a fresh block of `n` uninitialised bytes. -/
def sqlite3_malloc (h : Heap) (n : Int) : Option (List Nat) :=
  if n ≤ 0 then none
  else if h.avail n then some ((List.range n.toNat).map (fun k => h.junk k % 256))
  else none

/-- C library `memset(s, c, n)` on a buffer. -/
def memset (s : List Nat) (c : Nat) (n : Nat) : List Nat :=
  List.replicate n (c % 256) ++ s.drop n

/-- Conversion of an `unsigned int` value to `int`. -/
def toInt32 (n : Nat) : Int :=
  if n % 2 ^ 32 < 2 ^ 31 then ((n % 2 ^ 32 : Nat) : Int) else ((n % 2 ^ 32 : Nat) : Int) - 2 ^ 32

/-- Subtraction of two `unsigned int` values. -/
def usub (a b : Nat) : Nat := (a % 2 ^ 32 + 2 ^ 32 - b % 2 ^ 32) % 2 ^ 32

/-- Conversion `int(x)` of a `double`: truncation toward zero.  A value outside the
range of `int` is undefined behaviour in the source language and is not modelled. -/
def double_to_int (x : ℚ) : Int := if 0 ≤ x then ⌊x⌋ else ⌈x⌉

/-- External steps a callable can invoke. -/
inductive Call where
  | blob_to_mol
  | blob_to_bfp
  | generate
  | bfp_to_blob
  | metric
  | sqlite3_malloc (n : Int)
  | free_bfp
  | free_mol
deriving DecidableEq

/-- The `sqlite3_result_*` calls made on the host context. -/
inductive sqlite3_result where
  | blob (p : Option (List Nat)) (sz : Int)
  | double (d : ℚ)
  | int (i : Int)
  | error_code (rc : Int)
deriving DecidableEq

/-- Observable behaviour of one call of a callable. -/
structure Run where
  calls : List Call
  ctx : List sqlite3_result
deriving DecidableEq

/-! ## rdkit_adapter.cpp: bit strings and blobs -/

/-- The bit vector behind `BitString` (`ExplicitBitVect`): its bits in index order. -/
abbrev BitString := List Bool

def getNumBits (pBits : BitString) : Nat := pBits.length

def getBit (pBits : BitString) (i : Nat) : Bool := pBits.getD i false

/-- The byte count computed at the head of `bitstring_to_blob`. -/
def blob_num_bytes (pBits : BitString) : Int :=
  let num_bits : Int := toInt32 (getNumBits pBits)
  let num_bytes : Int := Int.tdiv num_bits 8
  if Int.tmod num_bits 8 ≠ 0 then num_bytes + 1 else num_bytes

/-- One iteration of the packing loop of `bitstring_to_blob`. -/
def pack_step (pBits : BitString) (s : List Nat) (i : Nat) : List Nat :=
  if !getBit pBits i then s
  else s.set (i / 8) ((s.getD (i / 8) 0 ||| (1 <<< (i % 8))) % 256)

/-- Result: return code, `*ppBlob`, `*pLen`. -/
def bitstring_to_blob (h : Heap) (pBits : BitString) : Int × Option (List Nat) × Int :=
  let num_bits : Int := toInt32 (getNumBits pBits)
  let num_bytes : Int := blob_num_bytes pBits
  match sqlite3_malloc h num_bytes with
  | none => (SQLITE_NOMEM, none, 0)
  | some s =>
    let s := memset s 0 num_bytes.toNat
    let s := (List.range num_bits.toNat).foldl (pack_step pBits) s
    (SQLITE_OK, some s, num_bytes)

/-- Outcome of a `new T(...)` expression. -/
inductive NewResult (α : Type) where
  | thrown
  | null
  | object (a : α)

/-- Result: return code and `*ppBits`.  The constructor `BitString(d, n)` is the
parameter `ctor`. -/
def blob_to_bitstring (ctor : List Nat → Int → NewResult BitString) (pBlob : List Nat)
    (len : Int) : Int × Option BitString :=
  match ctor pBlob len with
  | .object b => (SQLITE_OK, some b)
  | .null => (SQLITE_NOMEM, none)
  | .thrown => (SQLITE_ERROR, none)

/-- Modelled from the spec: the toolkit constructor `ExplicitBitVect(const char *, unsigned)`
that `BitString(d, n)` forwards to is not under src/.  Section 4.1 of the spec: it builds a
bit vector of `n` bits from the raw buffer, bit `i` read from bit `i mod 8` of byte `i / 8`,
pad bits beyond `n` ignored; it fails when the buffer is too short for `n` bits, when
`n <= 0`, or when `n` exceeds the implementation-wide maximum `MAX_BITS`. -/
def ExplicitBitVect_ctor (MAX_BITS : Nat) (d : List Nat) (n : Int) : NewResult BitString :=
  if n ≤ 0 ∨ (MAX_BITS : Int) < n ∨ ((8 * d.length : Nat) : Int) < n then .thrown
  else .object ((List.range n.toNat).map (fun i => (d.getD (i / 8) 0).testBit (i % 8)))

/-! ## rdkit_adapter.cpp: molecules -/

/-- The chemistry toolkit, as far as the adapter calls into it. -/
structure Toolkit (Mol : Type) where
  unpickle : List Nat → Option Mol
  getNumAtoms : Mol → Nat
  getNumBonds : Mol → Nat
  calcAMW : Mol → ℚ
  numRings : Mol → Nat
  SubstructMatch : Mol → Mol → Bool

/-- Result: return code and `*ppMol`.  `unpickle` is `new Mol(blob)`, `none` when the
constructor throws. -/
def blob_to_mol {Mol : Type} (tk : Toolkit Mol) (pBlob : List Nat) (len : Int) :
    Int × Option Mol :=
  match tk.unpickle (pBlob.take len.toNat) with
  | some m => (SQLITE_OK, some m)
  | none => (SQLITE_ERROR, none)

def mol_is_substruct {Mol : Type} (tk : Toolkit Mol) (p1 p2 : Mol) : Int :=
  if tk.SubstructMatch p1 p2 then 1 else 0

def mol_is_superstruct {Mol : Type} (tk : Toolkit Mol) (p1 p2 : Mol) : Int :=
  mol_is_substruct tk p2 p1

/-- The value `res` of the third step of `mol_cmp`. -/
def mol_cmp_mw_res {Mol : Type} (tk : Toolkit Mol) (p1 p2 : Mol) : Int :=
  double_to_int (tk.calcAMW p1 - tk.calcAMW p2 + 1 / 2)

def mol_cmp {Mol : Type} (tk : Toolkit Mol) (p1 p2 : Mol) : Int :=
  let res : Int := toInt32 (usub (tk.getNumAtoms p1) (tk.getNumAtoms p2))
  if res ≠ 0 then (if res > 0 then 1 else -1)
  else
    let res : Int := toInt32 (usub (tk.getNumBonds p1) (tk.getNumBonds p2))
    if res ≠ 0 then (if res > 0 then 1 else -1)
    else
      let res : Int := mol_cmp_mw_res tk p1 p2
      if res ≠ 0 then (if res > 0 then 1 else -1)
      else
        let res : Int := toInt32 (usub (tk.numRings p1) (tk.numRings p2))
        if res ≠ 0 then (if res > 0 then 1 else -1)
        else if mol_is_substruct tk p1 p2 ≠ 0 then 0 else -1

/-! ## bitstring.c -/

/-- The adapter functions on `Bfp` that `bitstring.c` calls; their definitions are in
no file under src/.  A pointer is an `Option`, `none` the null pointer. -/
structure BfpApi (Bfp : Type) where
  blob_to_bfp : List Nat → Int → Int × Option Bfp
  bfp_length : Option Bfp → Int
  bfp_weight : Option Bfp → Int
  bfp_tanimoto : Option Bfp → Option Bfp → ℚ
  bfp_dice : Option Bfp → Option Bfp → ℚ

/-- Result: return code, `*ppBfp` (in: its value before the call), steps invoked. -/
def fetch_bfp_arg {Bfp : Type} (api : BfpApi Bfp) (arg : sqlite3_value) (pBfp : Option Bfp) :
    Int × Option Bfp × List Call :=
  if sqlite3_value_type arg = SQLITE_BLOB then
    let sz := sqlite3_value_bytes arg
    let r := api.blob_to_bfp (sqlite3_value_blob arg) sz
    (r.1, r.2, [Call.blob_to_bfp])
  else (SQLITE_MISMATCH, pBfp, [])

/-- Modelled from the spec: `fetch_mol_arg` is called by the generator pipelines of
`bitstring.c` and defined in no file under src/.  Section 6 of the spec: the declared
host-side type of the argument is verified first ("must be a blob"), a mismatch is
TypeMismatch; the blob is then decoded, here by `blob_to_mol`. -/
def fetch_mol_arg {Mol : Type} (tk : Toolkit Mol) (arg : sqlite3_value) :
    Int × Option Mol × List Call :=
  if sqlite3_value_type arg = SQLITE_BLOB then
    let r := blob_to_mol tk (sqlite3_value_blob arg) (sqlite3_value_bytes arg)
    (r.1, r.2, [Call.blob_to_mol])
  else (SQLITE_MISMATCH, none, [])

/-- The block at label `func##_f_end` of the generator pipelines. -/
def MOL_TO_BFP_end (rc : Int) (pBlob : Option (List Nat)) (sz : Int) : List sqlite3_result :=
  if rc = SQLITE_OK then [sqlite3_result.blob pBlob sz] else [sqlite3_result.error_code rc]

/-- The callable `func##_f` generated by `MOL_TO_BFP(func)`.  `pBlob` and `sz` are
unset on the two early exits. -/
def MOL_TO_BFP {Mol Bfp : Type} (fetch : sqlite3_value → Int × Option Mol × List Call)
    (func : Option Mol → Int × Option Bfp)
    (bfp_to_blob : Option Bfp → Int × Option (List Nat) × Int)
    (argv0 : sqlite3_value) : Run :=
  let r1 := fetch argv0
  if r1.1 ≠ SQLITE_OK then ⟨r1.2.2, MOL_TO_BFP_end r1.1 none 0⟩
  else
    let r2 := func r1.2.1
    if r2.1 ≠ SQLITE_OK then
      ⟨r1.2.2 ++ [Call.generate, Call.free_mol], MOL_TO_BFP_end r2.1 none 0⟩
    else
      let r3 := bfp_to_blob r2.2
      ⟨r1.2.2 ++ [Call.generate, Call.bfp_to_blob, Call.free_bfp, Call.free_mol],
        MOL_TO_BFP_end r3.1 r3.2.1 r3.2.2⟩

/-- The callable `func##_f` generated by `MOL_TO_MORGAN_BFP(func)`. -/
def MOL_TO_MORGAN_BFP {Mol Bfp : Type} (coerce : sqlite3_value → Int)
    (fetch : sqlite3_value → Int × Option Mol × List Call)
    (func : Option Mol → Int → Int × Option Bfp)
    (bfp_to_blob : Option Bfp → Int × Option (List Nat) × Int)
    (argv0 argv1 : sqlite3_value) : Run :=
  let r1 := fetch argv0
  if r1.1 ≠ SQLITE_OK then ⟨r1.2.2, MOL_TO_BFP_end r1.1 none 0⟩
  else
    let radius : Int := sqlite3_value_int coerce argv1
    let r2 := func r1.2.1 radius
    if r2.1 ≠ SQLITE_OK then
      ⟨r1.2.2 ++ [Call.generate, Call.free_mol], MOL_TO_BFP_end r2.1 none 0⟩
    else
      let r3 := bfp_to_blob r2.2
      ⟨r1.2.2 ++ [Call.generate, Call.bfp_to_blob, Call.free_bfp, Call.free_mol],
        MOL_TO_BFP_end r3.1 r3.2.1 r3.2.2⟩

/-- The block at label `sim##_f_end` of the similarity callables. -/
def COMPARE_BITSTRINGS_end (rc : Int) (similarity : ℚ) : List sqlite3_result :=
  if rc = SQLITE_OK then [sqlite3_result.double similarity] else [sqlite3_result.error_code rc]

/-- The callable `bfp_##sim##_f` generated by `COMPARE_BITSTRINGS(sim)`; `bfp_sim` is
the metric `bfp_##sim`. -/
def COMPARE_BITSTRINGS {Bfp : Type} (api : BfpApi Bfp)
    (bfp_sim : Option Bfp → Option Bfp → ℚ) (argv0 argv1 : sqlite3_value) : Run :=
  let similarity : ℚ := 0
  let r1 := fetch_bfp_arg api argv0 none
  if r1.1 ≠ SQLITE_OK then ⟨r1.2.2, COMPARE_BITSTRINGS_end r1.1 similarity⟩
  else
    let p1 := r1.2.1
    let r2 := fetch_bfp_arg api argv1 none
    if r2.1 ≠ SQLITE_OK then
      ⟨r1.2.2 ++ r2.2.2 ++ [Call.free_bfp], COMPARE_BITSTRINGS_end r2.1 similarity⟩
    else
      let p2 := r2.2.1
      if api.bfp_length p1 ≠ api.bfp_length p2 then
        ⟨r1.2.2 ++ r2.2.2 ++ [Call.free_bfp, Call.free_bfp],
          COMPARE_BITSTRINGS_end SQLITE_MISMATCH similarity⟩
      else
        ⟨r1.2.2 ++ r2.2.2 ++ [Call.metric, Call.free_bfp, Call.free_bfp],
          COMPARE_BITSTRINGS_end r2.1 (bfp_sim p1 p2)⟩

def bfp_tanimoto_f {Bfp : Type} (api : BfpApi Bfp) (argv0 argv1 : sqlite3_value) : Run :=
  COMPARE_BITSTRINGS api api.bfp_tanimoto argv0 argv1

def bfp_dice_f {Bfp : Type} (api : BfpApi Bfp) (argv0 argv1 : sqlite3_value) : Run :=
  COMPARE_BITSTRINGS api api.bfp_dice argv0 argv1

/-- The filling loop of `bfp_dummy_f`: `*p++ = value` for `ii` from 0 below `len`. -/
def bfp_dummy_fill (pBlob : List Nat) (len : Int) (value : Int) : List Nat :=
  (List.range len.toNat).foldl (fun s ii => s.set ii (value % 256).toNat) pBlob

def bfp_dummy_f (h : Heap) (coerce : sqlite3_value → Int) (MAX_BITSTRING_SIZE : Int)
    (argv0 argv1 : sqlite3_value) : Run :=
  if sqlite3_value_type argv0 ≠ SQLITE_INTEGER then
    ⟨[], [sqlite3_result.error_code SQLITE_MISMATCH]⟩
  else if sqlite3_value_type argv1 ≠ SQLITE_INTEGER then
    ⟨[], [sqlite3_result.error_code SQLITE_MISMATCH]⟩
  else
    let len : Int := sqlite3_value_int coerce argv0
    let len : Int := if len ≤ 0 then 1 else len
    let len : Int := if len > MAX_BITSTRING_SIZE then MAX_BITSTRING_SIZE else len
    let value : Int := sqlite3_value_int coerce argv1
    let value : Int := if value < 0 then 0 else value
    let value : Int := if value > 255 then 255 else value
    match sqlite3_malloc h len with
    | none => ⟨[Call.sqlite3_malloc len], [sqlite3_result.error_code SQLITE_NOMEM]⟩
    | some pBlob =>
      ⟨[Call.sqlite3_malloc len], [sqlite3_result.blob (some (bfp_dummy_fill pBlob len value)) len]⟩

def bfp_length_f {Bfp : Type} (api : BfpApi Bfp) (argv0 : sqlite3_value) : Run :=
  let r := fetch_bfp_arg api argv0 none
  if r.1 = SQLITE_OK then
    ⟨r.2.2 ++ [Call.free_bfp], [sqlite3_result.int (api.bfp_length r.2.1)]⟩
  else ⟨r.2.2, [sqlite3_result.error_code r.1]⟩

def bfp_weight_f {Bfp : Type} (api : BfpApi Bfp) (argv0 : sqlite3_value) : Run :=
  let r := fetch_bfp_arg api argv0 none
  if r.1 = SQLITE_OK then
    ⟨r.2.2 ++ [Call.free_bfp], [sqlite3_result.int (api.bfp_weight r.2.1)]⟩
  else ⟨r.2.2, [sqlite3_result.error_code r.1]⟩

/-- Loop invariant of the packing loop after `k` iterations on a buffer of `L` bytes. -/
def PackInv (v : BitString) (L k : Nat) (s : List Nat) : Prop :=
  s.length = L ∧ (∀ b ∈ s, b < 256) ∧
    ∀ j, j < 8 * L → (s.getD (j / 8) 0).testBit (j % 8) = (decide (j < k) && v.getD j false)

/-! ## Concrete environments used in evaluations -/

def heap_ok : Heap := ⟨fun _ => true, fun k => 170 + k⟩

def bits10 : BitString := [true, false, false, true, false, false, false, false, true, true]

/-- A toolkit over molecules named by numbers: all share the counts 7, 6 and 1, the
weight is 100 plus the name, and molecule 0 contains itself and molecule 1 only. -/
def tk_weights : Toolkit Nat where
  unpickle := fun _ => none
  getNumAtoms := fun _ => 7
  getNumBonds := fun _ => 6
  calcAMW := fun m => 100 + (m : ℚ)
  numRings := fun _ => 1
  SubstructMatch := fun x y => x == 0 && y ≤ 1

/-- A toolkit over molecules named by numbers whose counts and weight are all equal;
molecule `x` contains molecule `y` when `x` is 0 and `y` is at most 1, or `x = y`. -/
def tk_equal : Toolkit Nat where
  unpickle := fun _ => none
  getNumAtoms := fun _ => 7
  getNumBonds := fun _ => 6
  calcAMW := fun _ => 100
  numRings := fun _ => 1
  SubstructMatch := fun x y => (x == 0 && y ≤ 1) || x == y

/-- A toolkit over molecules named by numbers: the name is the atom count, the bond
count is one less, the weight twelve times the name, no rings. -/
def tk_chain : Toolkit Nat where
  unpickle := fun b => if b.isEmpty then none else some b.length
  getNumAtoms := fun m => m
  getNumBonds := fun m => m - 1
  calcAMW := fun m => 12 * (m : ℚ)
  numRings := fun _ => 0
  SubstructMatch := fun x y => y ≤ x

/-- An adapter whose `Bfp` is a bit vector: decoding fails on an empty blob and otherwise
reads eight bits per byte, the length is the bit count, the weight the number of set bits,
the metrics are the Tanimoto and Dice coefficients. -/
def api_bits : BfpApi BitString where
  blob_to_bfp := fun b _ =>
    if b.isEmpty then (SQLITE_ERROR, none)
    else (SQLITE_OK, some ((List.range (8 * b.length)).map
      (fun i => (b.getD (i / 8) 0).testBit (i % 8))))
  bfp_length := fun p => ((p.getD []).length : Nat)
  bfp_weight := fun p => ((p.getD []).count true : Nat)
  bfp_tanimoto := fun p q =>
    ((((p.getD []).zipWith (fun a b => a && b) (q.getD [])).count true : Nat) : ℚ)
      / ((((p.getD []).zipWith (fun a b => a || b) (q.getD [])).count true : Nat) : ℚ)
  bfp_dice := fun p q =>
    2 * ((((p.getD []).zipWith (fun a b => a && b) (q.getD [])).count true : Nat) : ℚ)
      / ((((p.getD []).count true + (q.getD []).count true : Nat)) : ℚ)

/-- A generator that sets the bits below the atom count in a 16 bit vector, offset by
the radius. -/
def gen_toy (pMol : Option Nat) (radius : Int) : Int × Option BitString :=
  match pMol with
  | some m => (SQLITE_OK, some ((List.range 16).map (fun i => decide (i < m + radius.toNat))))
  | none => (SQLITE_ERROR, none)

/-- Packing step built on `bitstring_to_blob`. -/
def pack_toy (pBfp : Option BitString) : Int × Option (List Nat) × Int :=
  match pBfp with
  | some v => bitstring_to_blob heap_ok v
  | none => (SQLITE_ERROR, none, 0)

/-- A coercion of non-integer host values that reads every such value as 0. -/
def coerce_zero : sqlite3_value → Int := fun _ => 0

/-! ## Theorems -/

theorem toInt32_of_lt (n : Nat) (h : n < 2 ^ 31) : toInt32 n = (n : Int) := by
  unfold toInt32
  have : n % 2 ^ 32 = n := Nat.mod_eq_of_lt (by omega)
  rw [this, if_pos h]

theorem blob_num_bytes_eq (v : BitString) (h : v.length < 2 ^ 31) :
    blob_num_bytes v = (((v.length + 7) / 8 : Nat) : Int) := by
  unfold blob_num_bytes getNumBits
  simp only [toInt32_of_lt _ h]
  have h1 : Int.tdiv (v.length : Int) 8 = ((v.length / 8 : Nat) : Int) := by
    rw [Int.tdiv_eq_ediv (Int.natCast_nonneg _) (show (0 : Int) ≤ 8 by decide)]; omega
  have h2 : Int.tmod (v.length : Int) 8 = ((v.length % 8 : Nat) : Int) := by
    rw [Int.tmod_eq_emod (Int.natCast_nonneg _) (show (0 : Int) ≤ 8 by decide)]; omega
  rw [h1, h2]
  split <;> omega

theorem packInv_zero (v : BitString) (s0 : List Nat) (L : Nat) (hs : s0.length = L) :
    PackInv v L 0 (memset s0 0 L) := by
  have hm : memset s0 0 L = List.replicate L 0 := by
    unfold memset
    rw [List.drop_of_length_le (by omega)]
    simp
  rw [hm]
  refine ⟨by simp, ?_, ?_⟩
  · intro b hb
    rw [List.mem_replicate] at hb
    omega
  · intro j hj
    have : j / 8 < (List.replicate L 0).length := by simp; omega
    rw [List.getD_eq_getElem _ _ this]
    simp

theorem packInv_step (v : BitString) (L k : Nat) (s : List Nat) (hk : k < 8 * L)
    (h : PackInv v L k s) : PackInv v L (k + 1) (pack_step v s k) := by
  obtain ⟨hlen, hb, hbits⟩ := h
  have hk8 : k / 8 < s.length := by omega
  unfold pack_step getBit
  by_cases hv : v.getD k false = true
  · simp only [hv, Bool.not_true, Bool.false_eq_true, if_false]
    have hx : s.getD (k / 8) 0 < 2 ^ 8 := by
      rw [List.getD_eq_getElem _ _ hk8]
      exact hb _ (List.getElem_mem _)
    have hy : 1 <<< (k % 8) < 2 ^ 8 := by
      rw [Nat.one_shiftLeft]
      have : k % 8 < 8 := Nat.mod_lt _ (by omega)
      exact Nat.pow_lt_pow_right (by omega) this
    have hor : (s.getD (k / 8) 0 ||| 1 <<< (k % 8)) < 2 ^ 8 := Nat.or_lt_two_pow hx hy
    have hmod : (s.getD (k / 8) 0 ||| 1 <<< (k % 8)) % 256 = (s.getD (k / 8) 0 ||| 1 <<< (k % 8)) :=
      Nat.mod_eq_of_lt hor
    rw [hmod]
    refine ⟨by simp [hlen], ?_, ?_⟩
    · intro b hmem
      rcases List.mem_or_eq_of_mem_set hmem with h1 | h1
      · exact hb b h1
      · rw [h1]; exact hor
    · intro j hj
      have hj8 : j / 8 < s.length := by omega
      have hj8' : j / 8 < (s.set (k / 8) (s.getD (k / 8) 0 ||| 1 <<< (k % 8))).length := by
        simp; exact hj8
      rw [List.getD_eq_getElem _ _ hj8', List.getElem_set]
      have hold := hbits j hj
      rw [List.getD_eq_getElem _ _ hj8] at hold
      by_cases hq : k / 8 = j / 8
      · rw [if_pos hq, Nat.testBit_or, Nat.one_shiftLeft, Nat.testBit_two_pow]
        have hold2 := hold
        rw [← List.getD_eq_getElem _ 0 hj8, ← hq] at hold2
        rw [hold2]
        by_cases hr : k % 8 = j % 8
        · have : j = k := by omega
          subst this
          rw [hv]; simp
        · have : j ≠ k := by intro e; exact hr (by rw [e])
          simp only [hr, decide_False, Bool.or_false]
          congr 1
          simp only [decide_eq_decide]
          omega
      · rw [if_neg hq, hold]
        congr 1
        simp only [decide_eq_decide]
        omega
  · have hv' : v.getD k false = false := by simpa using hv
    simp only [hv', Bool.not_false, if_true]
    refine ⟨hlen, hb, ?_⟩
    intro j hj
    rw [hbits j hj]
    by_cases hjk : j = k
    · subst hjk; rw [hv']; simp
    · congr 1
      simp only [decide_eq_decide]
      omega

theorem packInv_loop (v : BitString) (L : Nat) (s : List Nat) (h0 : PackInv v L 0 s) :
    ∀ k, k ≤ 8 * L → PackInv v L k ((List.range k).foldl (pack_step v) s) := by
  intro k
  induction k with
  | zero => intro _; simpa using h0
  | succ n ih =>
    intro hn
    rw [List.range_succ, List.foldl_append]
    simp only [List.foldl_cons, List.foldl_nil]
    exact packInv_step v L n _ (by omega) (ih (by omega))


theorem sqlite3_malloc_length (h : Heap) (n : Int) (s : List Nat)
    (hs : sqlite3_malloc h n = some s) : 0 < n ∧ s.length = n.toNat := by
  unfold sqlite3_malloc at hs
  split at hs
  · exact absurd hs (by simp)
  · split at hs
    · have := Option.some.inj hs
      subst this
      exact ⟨by omega, by simp⟩
    · exact absurd hs (by simp)

theorem bitstring_to_blob_inv (h : Heap) (v : BitString) (hN : getNumBits v < 2 ^ 31)
    (s0 : List Nat) (hs : sqlite3_malloc h (blob_num_bytes v) = some s0) :
    ∃ blob, bitstring_to_blob h v
        = (SQLITE_OK, some blob, (((getNumBits v + 7) / 8 : Nat) : Int))
      ∧ PackInv v ((getNumBits v + 7) / 8) (getNumBits v) blob := by
  have hnb := blob_num_bytes_eq v hN
  obtain ⟨_, hlen⟩ := sqlite3_malloc_length h _ s0 hs
  rw [hnb] at hlen
  simp only [Int.toNat_ofNat] at hlen
  refine ⟨(List.range (getNumBits v)).foldl (pack_step v)
    (memset s0 0 ((getNumBits v + 7) / 8)), ?_, ?_⟩
  · unfold bitstring_to_blob
    simp only [hs]
    rw [hnb, toInt32_of_lt _ hN]
    simp only [Int.toNat_ofNat]
    rfl
  · exact packInv_loop v _ _ (packInv_zero v s0 _ hlen) _ (by unfold getNumBits; omega)

/-- C1: when the allocation succeeds, `bitstring_to_blob` returns SQLITE_OK with a buffer
of exactly ceil(N/8) bytes in which bit `i mod 8` of byte `i / 8` is set iff bit `i` of the
bit vector is set, for every `i < N`, and every pad bit at a position `>= N` is clear.  `N`
is the bit count, held in a C `int`. -/
theorem bitstring_to_blob_packs (h : Heap) (v : BitString) (hN : getNumBits v < 2 ^ 31)
    (halloc : (sqlite3_malloc h (blob_num_bytes v)).isSome = true) :
    ∃ blob, bitstring_to_blob h v
        = (SQLITE_OK, some blob, (((getNumBits v + 7) / 8 : Nat) : Int))
      ∧ blob.length = (getNumBits v + 7) / 8
      ∧ (∀ i, i < getNumBits v → (blob.getD (i / 8) 0).testBit (i % 8) = getBit v i)
      ∧ (∀ j, getNumBits v ≤ j → j < 8 * blob.length →
          (blob.getD (j / 8) 0).testBit (j % 8) = false)
      ∧ (∀ b ∈ blob, b < 256) := by
  obtain ⟨s0, hs⟩ := Option.isSome_iff_exists.mp halloc
  obtain ⟨blob, hrun, hlen, hbytes, hbits⟩ := bitstring_to_blob_inv h v hN s0 hs
  refine ⟨blob, hrun, hlen, ?_, ?_, hbytes⟩
  · intro i hi
    rw [hbits i (by unfold getNumBits at *; omega)]
    simp [hi, getBit]
  · intro j hj hj2
    rw [hbits j (by rw [← hlen]; exact hj2)]
    have : ¬ j < getNumBits v := by omega
    simp [this]

theorem bitstring_to_blob_packs_witness :
    getNumBits bits10 < 2 ^ 31 ∧ (sqlite3_malloc heap_ok (blob_num_bytes bits10)).isSome = true
      ∧ ∃ blob, bitstring_to_blob heap_ok bits10
          = (SQLITE_OK, some blob, (((getNumBits bits10 + 7) / 8 : Nat) : Int))
        ∧ blob.length = (getNumBits bits10 + 7) / 8
        ∧ (∀ i, i < getNumBits bits10 →
            (blob.getD (i / 8) 0).testBit (i % 8) = getBit bits10 i)
        ∧ (∀ j, getNumBits bits10 ≤ j → j < 8 * blob.length →
            (blob.getD (j / 8) 0).testBit (j % 8) = false)
        ∧ (∀ b ∈ blob, b < 256) :=
  ⟨by decide, by decide, bitstring_to_blob_packs heap_ok bits10 (by decide) (by decide)⟩

/-- C2: unpacking the buffer that `bitstring_to_blob` produced for a bit vector of `N` bits,
with declared length `N`, returns SQLITE_OK and a bit vector equal to the original one bit
for bit.  `N` is held in a C `int` and is within the implementation-wide maximum. -/
theorem blob_to_bitstring_roundtrip (h : Heap) (MAX_BITS : Nat) (v : BitString)
    (hN : getNumBits v < 2 ^ 31) (hmax : getNumBits v ≤ MAX_BITS)
    (blob : List Nat) (sz : Int) (hpack : bitstring_to_blob h v = (SQLITE_OK, some blob, sz)) :
    blob_to_bitstring (ExplicitBitVect_ctor MAX_BITS) blob ((getNumBits v : Nat) : Int)
      = (SQLITE_OK, some v) := by
  have hsome : ∃ s0, sqlite3_malloc h (blob_num_bytes v) = some s0 := by
    unfold bitstring_to_blob at hpack
    cases hm : sqlite3_malloc h (blob_num_bytes v) with
    | none =>
      simp only [hm] at hpack
      simp [SQLITE_NOMEM, SQLITE_OK] at hpack
    | some s0 => exact ⟨s0, rfl⟩
  obtain ⟨s0, hs⟩ := hsome
  obtain ⟨blob2, hrun, hlen, _, hbits⟩ := bitstring_to_blob_inv h v hN s0 hs
  have hb : blob2 = blob := by
    rw [hrun] at hpack
    have := congrArg (fun r => r.2.1) hpack
    simpa using this
  subst hb
  obtain ⟨hpos, _⟩ := sqlite3_malloc_length h _ s0 hs
  rw [blob_num_bytes_eq v hN] at hpos
  have hNpos : 0 < getNumBits v := by
    by_contra hc
    have h0 : v.length = 0 := by unfold getNumBits at hc; omega
    rw [h0] at hpos
    simp at hpos
  unfold blob_to_bitstring ExplicitBitVect_ctor
  have hcond : ¬ (((getNumBits v : Nat) : Int) ≤ 0 ∨ (MAX_BITS : Int) < ((getNumBits v : Nat) : Int)
      ∨ ((8 * blob2.length : Nat) : Int) < ((getNumBits v : Nat) : Int)) := by
    rw [hlen]; omega
  rw [if_neg hcond]
  simp only [Int.toNat_ofNat]
  congr 2
  apply List.ext_getElem
  · simp [getNumBits]
  · intro n h1 h2
    simp only [List.getElem_map, List.getElem_range]
    have hn : n < getNumBits v := h2
    rw [hbits n (by omega), List.getD_eq_getElem _ _ h2]
    simp [hn]

theorem blob_to_bitstring_roundtrip_witness :
    getNumBits bits10 < 2 ^ 31 ∧ getNumBits bits10 ≤ 2048
      ∧ bitstring_to_blob heap_ok bits10 = (SQLITE_OK, some [9, 3], 2)
      ∧ blob_to_bitstring (ExplicitBitVect_ctor 2048) [9, 3] ((getNumBits bits10 : Nat) : Int)
          = (SQLITE_OK, some bits10) :=
  ⟨by decide, by decide, by decide,
    blob_to_bitstring_roundtrip heap_ok 2048 bits10 (by decide) (by decide) [9, 3] 2 (by decide)⟩

/-! ### Structure comparison -/

theorem toInt32_usub_self (a : Nat) : toInt32 (usub a a) = 0 := by
  unfold toInt32 usub
  split <;> omega

theorem double_to_int_half : double_to_int (1 / 2) = 0 := by
  norm_num [double_to_int]

/-- C4: evaluation of `mol_cmp` on two structures with equal atom, bond and ring counts and
weights 100 and 101.  The weight difference is -1, its round-half-up rounding is -1, non-zero
with sign -1, so the chain should stop at step 3 with -1.  The code computes `int(-1 + .5)`,
which is 0: it goes on to the containment test and returns 0, and with a containment relation
that never holds it returns the containment answer -1 instead. -/
theorem mol_cmp_chain_passes_weight_step :
    tk_weights.getNumAtoms 0 = tk_weights.getNumAtoms 1
    ∧ tk_weights.getNumBonds 0 = tk_weights.getNumBonds 1
    ∧ tk_weights.numRings 0 = tk_weights.numRings 1
    ∧ tk_weights.calcAMW 0 - tk_weights.calcAMW 1 = -1
    ∧ ⌊tk_weights.calcAMW 0 - tk_weights.calcAMW 1 + 1 / 2⌋ = -1
    ∧ round (tk_weights.calcAMW 0 - tk_weights.calcAMW 1) = -1
    ∧ Int.sign ⌊tk_weights.calcAMW 0 - tk_weights.calcAMW 1 + 1 / 2⌋ = -1
    ∧ double_to_int (tk_weights.calcAMW 0 - tk_weights.calcAMW 1 + 1 / 2) = 0
    ∧ tk_weights.SubstructMatch 0 1 = true
    ∧ mol_cmp tk_weights 0 1 = 0
    ∧ mol_cmp tk_weights 0 1 ≠ Int.sign ⌊tk_weights.calcAMW 0 - tk_weights.calcAMW 1 + 1 / 2⌋
    ∧ mol_cmp { tk_weights with SubstructMatch := fun _ _ => false } 0 1 = -1 := by
  have hd : tk_weights.calcAMW 0 - tk_weights.calcAMW 1 = -1 := by norm_num [tk_weights]
  have hfl : ⌊tk_weights.calcAMW 0 - tk_weights.calcAMW 1 + 1 / 2⌋ = -1 := by
    rw [hd, Int.floor_eq_iff]
    norm_num
  have hround : round (tk_weights.calcAMW 0 - tk_weights.calcAMW 1) = -1 := by
    rw [hd]
    have hc : (-1 : ℚ) = ((-1 : ℤ) : ℚ) := by norm_num
    rw [hc, round_intCast]
  have htr : double_to_int (tk_weights.calcAMW 0 - tk_weights.calcAMW 1 + 1 / 2) = 0 := by
    rw [hd]
    norm_num [double_to_int]
  have hres : mol_cmp_mw_res tk_weights 0 1 = 0 := htr
  have hres2 : mol_cmp_mw_res { tk_weights with SubstructMatch := fun _ _ => false } 0 1 = 0 :=
    htr
  have hu7 : toInt32 (usub 7 7) = 0 := toInt32_usub_self 7
  have hu6 : toInt32 (usub 6 6) = 0 := toInt32_usub_self 6
  have hu1 : toInt32 (usub 1 1) = 0 := toInt32_usub_self 1
  have hcmp : mol_cmp tk_weights 0 1 = 0 := by
    unfold mol_cmp
    rw [hres]
    simp [tk_weights, hu7, hu6, hu1, mol_is_substruct]
  refine ⟨rfl, rfl, rfl, hd, hfl, hround, ?_, htr, by decide, hcmp, ?_, ?_⟩
  · rw [hfl]; decide
  · rw [hcmp, hfl]; decide
  · unfold mol_cmp
    rw [hres2]
    simp [tk_weights, hu7, hu6, hu1, mol_is_substruct]

theorem mol_cmp_mw_res_of_eq {Mol : Type} (tk : Toolkit Mol) (a b : Mol)
    (hW : tk.calcAMW a = tk.calcAMW b) : mol_cmp_mw_res tk a b = 0 := by
  unfold mol_cmp_mw_res
  rw [hW, sub_self, zero_add]
  exact double_to_int_half

theorem mol_cmp_of_equal_fields {Mol : Type} (tk : Toolkit Mol) (a b : Mol)
    (hA : tk.getNumAtoms a = tk.getNumAtoms b) (hB : tk.getNumBonds a = tk.getNumBonds b)
    (hW : tk.calcAMW a = tk.calcAMW b) (hR : tk.numRings a = tk.numRings b) :
    mol_cmp tk a b = if tk.SubstructMatch a b then 0 else -1 := by
  unfold mol_cmp mol_is_substruct
  simp only [hA, hB, hR, toInt32_usub_self, mol_cmp_mw_res_of_eq tk a b hW]
  cases tk.SubstructMatch a b <;> simp

/-- C5: when atom counts, bond counts, weights and ring counts are equal, `mol_cmp a b` is 0
if `a` contains `b` and -1 otherwise; so if `a` contains `b` and `b` does not contain `a`
then `mol_cmp a b = 0` and `mol_cmp b a = -1`, if neither contains the other both are -1,
and the result is never +1. -/
theorem mol_cmp_containment_step {Mol : Type} (tk : Toolkit Mol) (a b : Mol)
    (hA : tk.getNumAtoms a = tk.getNumAtoms b) (hB : tk.getNumBonds a = tk.getNumBonds b)
    (hW : tk.calcAMW a = tk.calcAMW b) (hR : tk.numRings a = tk.numRings b) :
    mol_cmp tk a b = (if tk.SubstructMatch a b then 0 else -1)
    ∧ mol_cmp tk b a = (if tk.SubstructMatch b a then 0 else -1)
    ∧ (tk.SubstructMatch a b = true → tk.SubstructMatch b a = false →
        mol_cmp tk a b = 0 ∧ mol_cmp tk b a = -1)
    ∧ (tk.SubstructMatch a b = false → tk.SubstructMatch b a = false →
        mol_cmp tk a b = -1 ∧ mol_cmp tk b a = -1)
    ∧ mol_cmp tk a b ≠ 1 ∧ mol_cmp tk b a ≠ 1 := by
  have hab := mol_cmp_of_equal_fields tk a b hA hB hW hR
  have hba := mol_cmp_of_equal_fields tk b a hA.symm hB.symm hW.symm hR.symm
  refine ⟨hab, hba, ?_, ?_, ?_, ?_⟩
  · intro h1 h2
    rw [hab, hba, h1, h2]
    exact ⟨rfl, rfl⟩
  · intro h1 h2
    rw [hab, hba, h1, h2]
    exact ⟨rfl, rfl⟩
  · rw [hab]
    cases tk.SubstructMatch a b <;> decide
  · rw [hba]
    cases tk.SubstructMatch b a <;> decide

theorem mol_cmp_containment_step_witness :
    tk_equal.getNumAtoms 0 = tk_equal.getNumAtoms 1
    ∧ tk_equal.getNumBonds 0 = tk_equal.getNumBonds 1
    ∧ tk_equal.calcAMW 0 = tk_equal.calcAMW 1
    ∧ tk_equal.numRings 0 = tk_equal.numRings 1
    ∧ tk_equal.SubstructMatch 0 1 = true ∧ tk_equal.SubstructMatch 1 0 = false
    ∧ mol_cmp tk_equal 0 1 = 0 ∧ mol_cmp tk_equal 1 0 = -1 :=
  ⟨rfl, rfl, rfl, rfl, by decide, by decide,
    (mol_cmp_containment_step tk_equal 0 1 rfl rfl rfl rfl).2.2.1 (by decide) (by decide)⟩

/-- C6: `mol_is_substruct needle haystack` and `mol_is_superstruct haystack needle` are the
same value, `mol_is_superstruct p1 p2 = mol_is_substruct p2 p1`, and both are 0 or 1. -/
theorem mol_is_superstruct_mirror {Mol : Type} (tk : Toolkit Mol) (needle haystack : Mol) :
    mol_is_substruct tk needle haystack = mol_is_superstruct tk haystack needle
    ∧ mol_is_superstruct tk needle haystack = mol_is_substruct tk haystack needle
    ∧ (mol_is_substruct tk needle haystack = 0 ∨ mol_is_substruct tk needle haystack = 1)
    ∧ (mol_is_superstruct tk haystack needle = 0
        ∨ mol_is_superstruct tk haystack needle = 1) := by
  have hr : mol_is_substruct tk needle haystack = 0
      ∨ mol_is_substruct tk needle haystack = 1 := by
    unfold mol_is_substruct
    cases tk.SubstructMatch needle haystack
    · exact Or.inl rfl
    · exact Or.inr rfl
  exact ⟨rfl, rfl, hr, hr⟩

/-- C10: evaluation of step 3 on two structures with equal counts and weights 100 and 101.
The weight difference is -1: `int(-1 + .5)` is 0, not the round-half-up value -1, so step 3
does not decide and `mol_cmp` returns the containment result 0, while the swapped call
computes `int(1 + .5) = 1` and returns +1. -/
theorem mol_cmp_weight_step_truncates :
    tk_weights.calcAMW 0 - tk_weights.calcAMW 1 = -1
    ∧ mol_cmp_mw_res tk_weights 0 1 = 0
    ∧ ⌊tk_weights.calcAMW 0 - tk_weights.calcAMW 1 + 1 / 2⌋ = -1
    ∧ mol_cmp tk_weights 0 1 = 0
    ∧ mol_cmp tk_weights 1 0 = 1 := by
  have h01 : mol_cmp_mw_res tk_weights 0 1 = 0 := by
    norm_num [mol_cmp_mw_res, tk_weights, double_to_int]
  have h10 : mol_cmp_mw_res tk_weights 1 0 = 1 := by
    norm_num [mol_cmp_mw_res, tk_weights, double_to_int]
  have hu : toInt32 (usub 7 7) = 0 := toInt32_usub_self 7
  have hu6 : toInt32 (usub 6 6) = 0 := toInt32_usub_self 6
  have hu1 : toInt32 (usub 1 1) = 0 := toInt32_usub_self 1
  refine ⟨by norm_num [tk_weights], h01, by norm_num [tk_weights], ?_, ?_⟩
  · unfold mol_cmp
    rw [h01]
    simp [tk_weights, hu, hu6, hu1, mol_is_substruct]
  · unfold mol_cmp
    rw [h10]
    simp [tk_weights, hu, hu6, hu1]

/-! ### Similarity callables -/

/-- C3: when both fingerprint blobs decode successfully to different bit lengths, the
tanimoto and dice callables deliver the error code SQLITE_MISMATCH and no numeric result,
and the metric is not among the steps invoked. -/
theorem COMPARE_BITSTRINGS_length_mismatch {Bfp : Type} (api : BfpApi Bfp)
    (b1 b2 : List Nat) (p1 p2 : Option Bfp)
    (h1 : api.blob_to_bfp b1 (b1.length : Int) = (SQLITE_OK, p1))
    (h2 : api.blob_to_bfp b2 (b2.length : Int) = (SQLITE_OK, p2))
    (hlen : api.bfp_length p1 ≠ api.bfp_length p2) :
    bfp_tanimoto_f api (.blob b1) (.blob b2)
        = ⟨[Call.blob_to_bfp, Call.blob_to_bfp, Call.free_bfp, Call.free_bfp],
            [sqlite3_result.error_code SQLITE_MISMATCH]⟩
    ∧ bfp_dice_f api (.blob b1) (.blob b2)
        = ⟨[Call.blob_to_bfp, Call.blob_to_bfp, Call.free_bfp, Call.free_bfp],
            [sqlite3_result.error_code SQLITE_MISMATCH]⟩
    ∧ Call.metric ∉ (bfp_tanimoto_f api (.blob b1) (.blob b2)).calls
    ∧ Call.metric ∉ (bfp_dice_f api (.blob b1) (.blob b2)).calls
    ∧ (∀ d, sqlite3_result.double d ∉ (bfp_tanimoto_f api (.blob b1) (.blob b2)).ctx)
    ∧ (∀ d, sqlite3_result.double d ∉ (bfp_dice_f api (.blob b1) (.blob b2)).ctx) := by
  have key : ∀ sim : Option Bfp → Option Bfp → ℚ,
      COMPARE_BITSTRINGS api sim (.blob b1) (.blob b2)
        = ⟨[Call.blob_to_bfp, Call.blob_to_bfp, Call.free_bfp, Call.free_bfp],
            [sqlite3_result.error_code SQLITE_MISMATCH]⟩ := by
    intro sim
    unfold COMPARE_BITSTRINGS fetch_bfp_arg
    simp only [sqlite3_value_type, sqlite3_value_bytes, sqlite3_value_blob, if_true, h1, h2]
    simp [hlen, COMPARE_BITSTRINGS_end, SQLITE_MISMATCH, SQLITE_OK]
  refine ⟨key _, key _, ?_, ?_, ?_, ?_⟩
  · unfold bfp_tanimoto_f; rw [key]; decide
  · unfold bfp_dice_f; rw [key]; decide
  · intro d; unfold bfp_tanimoto_f; rw [key]; simp
  · intro d; unfold bfp_dice_f; rw [key]; simp

theorem COMPARE_BITSTRINGS_length_mismatch_witness :
    api_bits.blob_to_bfp [1] (([1] : List Nat).length : Int)
        = (SQLITE_OK, (api_bits.blob_to_bfp [1] 1).2)
    ∧ api_bits.blob_to_bfp [1, 2] (([1, 2] : List Nat).length : Int)
        = (SQLITE_OK, (api_bits.blob_to_bfp [1, 2] 2).2)
    ∧ api_bits.bfp_length (api_bits.blob_to_bfp [1] 1).2
        ≠ api_bits.bfp_length (api_bits.blob_to_bfp [1, 2] 2).2
    ∧ bfp_tanimoto_f api_bits (.blob [1]) (.blob [1, 2])
        = ⟨[Call.blob_to_bfp, Call.blob_to_bfp, Call.free_bfp, Call.free_bfp],
            [sqlite3_result.error_code SQLITE_MISMATCH]⟩ :=
  ⟨rfl, rfl, by decide,
    (COMPARE_BITSTRINGS_length_mismatch api_bits [1] [1, 2] (api_bits.blob_to_bfp [1] 1).2
      (api_bits.blob_to_bfp [1, 2] 2).2 rfl rfl (by decide)).1⟩

/-! ### The uniform test fingerprint -/

theorem fill_loop_getElem? (c : Nat) (s : List Nat) (k : Nat) (hk : k ≤ s.length) (i : Nat) :
    ((List.range k).foldl (fun t ii => t.set ii c) s)[i]?
      = if i < k then some c else s[i]? := by
  induction k with
  | zero => simp
  | succ n ih =>
    have hlen : ∀ m, ((List.range m).foldl (fun t ii => t.set ii c) s).length = s.length := by
      intro m
      induction m with
      | zero => simp
      | succ q ihq =>
        rw [List.range_succ, List.foldl_append]
        simp [ihq]
    rw [List.range_succ, List.foldl_append]
    simp only [List.foldl_cons, List.foldl_nil]
    rw [List.getElem?_set, hlen n, ih (by omega)]
    by_cases hni : n = i
    · subst hni
      simp
      omega
    · rw [if_neg hni]
      by_cases hin : i < n
      · rw [if_pos hin, if_pos (by omega)]
      · rw [if_neg hin, if_neg (by omega)]

theorem bfp_dummy_fill_eq (pBlob : List Nat) (len value : Int)
    (hlen : pBlob.length = len.toNat) :
    bfp_dummy_fill pBlob len value = List.replicate len.toNat (value % 256).toNat := by
  unfold bfp_dummy_fill
  apply List.ext_getElem?
  intro i
  rw [fill_loop_getElem? _ _ _ (by omega), List.getElem?_replicate]
  by_cases hi : i < len.toNat
  · rw [if_pos hi, if_pos hi]
  · rw [if_neg hi, if_neg hi]
    exact List.getElem?_eq_none (by omega)

/-- C7: on two INTEGER arguments `len` and `value`, when the allocation succeeds,
`bfp_dummy_f` delivers a blob of exactly `clamp(len, 1, MAX_BITSTRING_SIZE)` bytes, each
equal to `clamp(value, 0, 255)`; `len = 4`, `value = 255` gives four 0xFF bytes when the
maximum is at least 4, and `len = 0`, `value = 10` gives the one byte 10. -/
theorem bfp_dummy_f_uniform (h : Heap) (coerce : sqlite3_value → Int)
    (MAX_BITSTRING_SIZE len value : Int)
    (halloc : (sqlite3_malloc h (min (max len 1) MAX_BITSTRING_SIZE)).isSome = true) :
    bfp_dummy_f h coerce MAX_BITSTRING_SIZE (.integer len) (.integer value)
      = ⟨[Call.sqlite3_malloc (min (max len 1) MAX_BITSTRING_SIZE)],
          [sqlite3_result.blob
            (some (List.replicate (min (max len 1) MAX_BITSTRING_SIZE).toNat
              (min (max value 0) 255).toNat))
            (min (max len 1) MAX_BITSTRING_SIZE)]⟩
    ∧ 1 ≤ min (max len 1) MAX_BITSTRING_SIZE
    ∧ (len = 4 → value = 255 → 4 ≤ MAX_BITSTRING_SIZE →
        (bfp_dummy_f h coerce MAX_BITSTRING_SIZE (.integer len) (.integer value)).ctx
          = [sqlite3_result.blob (some [255, 255, 255, 255]) 4])
    ∧ (len = 0 → value = 10 →
        (bfp_dummy_f h coerce MAX_BITSTRING_SIZE (.integer len) (.integer value)).ctx
          = [sqlite3_result.blob (some [10]) 1]) := by
  obtain ⟨s0, hs⟩ := Option.isSome_iff_exists.mp halloc
  obtain ⟨hpos, hs0⟩ := sqlite3_malloc_length h _ s0 hs
  have hl : (if (if len ≤ 0 then (1 : Int) else len) > MAX_BITSTRING_SIZE
      then MAX_BITSTRING_SIZE else (if len ≤ 0 then 1 else len))
      = min (max len 1) MAX_BITSTRING_SIZE := by
    split <;> split <;> omega
  have hv : (if (if value < 0 then (0 : Int) else value) > 255
      then 255 else (if value < 0 then 0 else value)) = min (max value 0) 255 := by
    split <;> split <;> omega
  have hmod : (min (max value 0) 255 % 256).toNat = (min (max value 0) 255).toNat := by
    congr 1
    omega
  have main : bfp_dummy_f h coerce MAX_BITSTRING_SIZE (.integer len) (.integer value)
      = ⟨[Call.sqlite3_malloc (min (max len 1) MAX_BITSTRING_SIZE)],
          [sqlite3_result.blob
            (some (List.replicate (min (max len 1) MAX_BITSTRING_SIZE).toNat
              (min (max value 0) 255).toNat))
            (min (max len 1) MAX_BITSTRING_SIZE)]⟩ := by
    unfold bfp_dummy_f
    simp only [sqlite3_value_type, sqlite3_value_int, ne_eq, not_true_eq_false, if_false]
    rw [hl, hv]
    simp only [hs]
    rw [bfp_dummy_fill_eq s0 _ _ hs0, hmod]
  refine ⟨main, by omega, ?_, ?_⟩
  · intro e1 e2 e3
    rw [main]
    subst e1 e2
    have hn : min (max (4 : Int) 1) MAX_BITSTRING_SIZE = 4 := by omega
    simp only [hn]
    rfl
  · intro e1 e2
    rw [main]
    subst e1 e2
    have hn : min (max (0 : Int) 1) MAX_BITSTRING_SIZE = 1 := by omega
    simp only [hn]
    rfl

theorem bfp_dummy_f_uniform_witness :
    (sqlite3_malloc heap_ok (min (max 4 1) 256)).isSome = true
    ∧ (sqlite3_malloc heap_ok (min (max 0 1) 256)).isSome = true
    ∧ bfp_dummy_f heap_ok coerce_zero 256 (.integer 4) (.integer 255)
        = ⟨[Call.sqlite3_malloc 4], [sqlite3_result.blob (some [255, 255, 255, 255]) 4]⟩
    ∧ (bfp_dummy_f heap_ok coerce_zero 256 (.integer 0) (.integer 10)).ctx
        = [sqlite3_result.blob (some [10]) 1] :=
  ⟨by decide, by decide,
    (bfp_dummy_f_uniform heap_ok coerce_zero 256 4 255 (by decide)).1,
    (bfp_dummy_f_uniform heap_ok coerce_zero 256 0 10 (by decide)).2.2.2 rfl rfl⟩

/-! ### Generator pipelines -/

/-- C9: a call of a `MOL_TO_BFP` pipeline makes exactly one `sqlite3_result_*` call: the
blob of the packing step iff the three steps (fetch, generate, pack) all return SQLITE_OK,
and otherwise the error code of the first failing step, after which no later step is
invoked.  The Morgan pipeline is the same pipeline with the radius passed to the generator. -/
theorem MOL_TO_BFP_one_result {Mol Bfp : Type}
    (fetch : sqlite3_value → Int × Option Mol × List Call)
    (func : Option Mol → Int × Option Bfp)
    (bfp_to_blob : Option Bfp → Int × Option (List Nat) × Int) (arg : sqlite3_value) :
    (MOL_TO_BFP fetch func bfp_to_blob arg).ctx.length = 1
    ∧ ((∃ p sz, sqlite3_result.blob p sz ∈ (MOL_TO_BFP fetch func bfp_to_blob arg).ctx)
        ↔ ((fetch arg).1 = SQLITE_OK ∧ (func (fetch arg).2.1).1 = SQLITE_OK
            ∧ (bfp_to_blob (func (fetch arg).2.1).2).1 = SQLITE_OK))
    ∧ ((∃ rc, sqlite3_result.error_code rc ∈ (MOL_TO_BFP fetch func bfp_to_blob arg).ctx)
        ↔ ¬ ((fetch arg).1 = SQLITE_OK ∧ (func (fetch arg).2.1).1 = SQLITE_OK
            ∧ (bfp_to_blob (func (fetch arg).2.1).2).1 = SQLITE_OK))
    ∧ ((fetch arg).1 ≠ SQLITE_OK →
        MOL_TO_BFP fetch func bfp_to_blob arg
          = ⟨(fetch arg).2.2, [sqlite3_result.error_code (fetch arg).1]⟩)
    ∧ ((fetch arg).1 = SQLITE_OK → (func (fetch arg).2.1).1 ≠ SQLITE_OK →
        MOL_TO_BFP fetch func bfp_to_blob arg
          = ⟨(fetch arg).2.2 ++ [Call.generate, Call.free_mol],
              [sqlite3_result.error_code (func (fetch arg).2.1).1]⟩)
    ∧ ((fetch arg).1 = SQLITE_OK → (func (fetch arg).2.1).1 = SQLITE_OK →
        (bfp_to_blob (func (fetch arg).2.1).2).1 ≠ SQLITE_OK →
        MOL_TO_BFP fetch func bfp_to_blob arg
          = ⟨(fetch arg).2.2
                ++ [Call.generate, Call.bfp_to_blob, Call.free_bfp, Call.free_mol],
              [sqlite3_result.error_code (bfp_to_blob (func (fetch arg).2.1).2).1]⟩)
    ∧ ((fetch arg).1 = SQLITE_OK → (func (fetch arg).2.1).1 = SQLITE_OK →
        (bfp_to_blob (func (fetch arg).2.1).2).1 = SQLITE_OK →
        MOL_TO_BFP fetch func bfp_to_blob arg
          = ⟨(fetch arg).2.2
                ++ [Call.generate, Call.bfp_to_blob, Call.free_bfp, Call.free_mol],
              [sqlite3_result.blob (bfp_to_blob (func (fetch arg).2.1).2).2.1
                (bfp_to_blob (func (fetch arg).2.1).2).2.2]⟩)
    ∧ (∀ (coerce : sqlite3_value → Int) (mfunc : Option Mol → Int → Int × Option Bfp)
          (arg1 : sqlite3_value),
        MOL_TO_MORGAN_BFP coerce fetch mfunc bfp_to_blob arg arg1
          = MOL_TO_BFP fetch (fun m => mfunc m (sqlite3_value_int coerce arg1))
              bfp_to_blob arg) := by
  by_cases h1 : (fetch arg).1 = SQLITE_OK
  · by_cases h2 : (func (fetch arg).2.1).1 = SQLITE_OK
    · by_cases h3 : (bfp_to_blob (func (fetch arg).2.1).2).1 = SQLITE_OK
      · have hrun : MOL_TO_BFP fetch func bfp_to_blob arg
            = ⟨(fetch arg).2.2
                  ++ [Call.generate, Call.bfp_to_blob, Call.free_bfp, Call.free_mol],
                [sqlite3_result.blob (bfp_to_blob (func (fetch arg).2.1).2).2.1
                  (bfp_to_blob (func (fetch arg).2.1).2).2.2]⟩ := by
          unfold MOL_TO_BFP MOL_TO_BFP_end
          simp [h1, h2, h3]
        refine ⟨by rw [hrun]; rfl, ?_, ?_, fun h => absurd h1 h, fun _ h => absurd h2 h,
          fun _ _ h => absurd h3 h, fun _ _ _ => hrun, fun _ _ _ => rfl⟩
        · rw [hrun]; simp [h1, h2, h3]
        · rw [hrun]; simp [h1, h2, h3]
      · have hrun : MOL_TO_BFP fetch func bfp_to_blob arg
            = ⟨(fetch arg).2.2
                  ++ [Call.generate, Call.bfp_to_blob, Call.free_bfp, Call.free_mol],
                [sqlite3_result.error_code (bfp_to_blob (func (fetch arg).2.1).2).1]⟩ := by
          unfold MOL_TO_BFP MOL_TO_BFP_end
          simp [h1, h2, h3]
        refine ⟨by rw [hrun]; rfl, ?_, ?_, fun h => absurd h1 h, fun _ h => absurd h2 h,
          fun _ _ _ => hrun, fun _ _ h => absurd h h3, fun _ _ _ => rfl⟩
        · rw [hrun]; simp [h1, h2, h3]
        · rw [hrun]; simp [h1, h2, h3]
    · have hrun : MOL_TO_BFP fetch func bfp_to_blob arg
          = ⟨(fetch arg).2.2 ++ [Call.generate, Call.free_mol],
              [sqlite3_result.error_code (func (fetch arg).2.1).1]⟩ := by
        unfold MOL_TO_BFP MOL_TO_BFP_end
        simp [h1, h2]
      refine ⟨by rw [hrun]; rfl, ?_, ?_, fun h => absurd h1 h, fun _ _ => hrun,
        fun _ h => absurd h h2, fun _ h => absurd h h2, fun _ _ _ => rfl⟩
      · rw [hrun]; simp [h1, h2]
      · rw [hrun]; simp [h1, h2]
  · have hrun : MOL_TO_BFP fetch func bfp_to_blob arg
        = ⟨(fetch arg).2.2, [sqlite3_result.error_code (fetch arg).1]⟩ := by
      unfold MOL_TO_BFP MOL_TO_BFP_end
      simp [h1]
    refine ⟨by rw [hrun]; rfl, ?_, ?_, fun _ => hrun, fun h => absurd h h1,
      fun h => absurd h h1, fun h => absurd h h1, fun _ _ _ => rfl⟩
    · rw [hrun]; simp [h1]
    · rw [hrun]; simp [h1]

theorem MOL_TO_BFP_one_result_witness :
    (fetch_mol_arg tk_chain (.blob [])).1 ≠ SQLITE_OK
    ∧ MOL_TO_BFP (fetch_mol_arg tk_chain) (fun m => gen_toy m 0) pack_toy (.blob [])
        = ⟨[Call.blob_to_mol], [sqlite3_result.error_code SQLITE_ERROR]⟩ :=
  ⟨by decide,
    (MOL_TO_BFP_one_result (fetch_mol_arg tk_chain) (fun m => gen_toy m 0) pack_toy
      (.blob [])).2.2.2.1 (by decide)⟩

/-! ### Argument type checks -/

/-- C8, refuted as stated at two argument lists.  A Morgan pipeline called with a
decodable blob and a TEXT radius signals no mismatch: it decodes, generates, packs and
delivers a blob.  The tanimoto callable called with a decodable blob and a TEXT second
argument signals SQLITE_MISMATCH only after the first blob was decoded. -/
theorem type_check_not_before_every_step :
    sqlite3_value_type (.text "CCO") ≠ SQLITE_INTEGER
    ∧ MOL_TO_MORGAN_BFP coerce_zero (fetch_mol_arg tk_chain) gen_toy pack_toy
        (.blob [1, 2, 3]) (.text "CCO")
        = ⟨[Call.blob_to_mol, Call.generate, Call.bfp_to_blob, Call.free_bfp, Call.free_mol],
            [sqlite3_result.blob (some [7, 0]) 2]⟩
    ∧ sqlite3_value_type (.text "CCO") ≠ SQLITE_BLOB
    ∧ bfp_tanimoto_f api_bits (.blob [1]) (.text "CCO")
        = ⟨[Call.blob_to_bfp, Call.free_bfp], [sqlite3_result.error_code SQLITE_MISMATCH]⟩ := by
  refine ⟨by decide, by decide, by decide, by decide⟩

/-- C8 as amended: arguments are fetched left to right, each fetch checking the host type
before decoding that argument.  A first argument that is not a blob makes length, weight,
tanimoto, dice and both generator pipelines deliver SQLITE_MISMATCH with no step invoked; a
second argument of tanimoto or dice that is not a blob, after a first one that decoded,
delivers SQLITE_MISMATCH after that one decode, releases it and does not invoke the metric;
`bfp_dummy_f` delivers SQLITE_MISMATCH with no allocation when either argument is not an
INTEGER. -/
theorem type_mismatch_left_to_right {Mol Bfp : Type} (api : BfpApi Bfp) (tk : Toolkit Mol)
    (h : Heap) (coerce : sqlite3_value → Int) (MAX_BITSTRING_SIZE : Int)
    (func : Option Mol → Int × Option Bfp) (mfunc : Option Mol → Int → Int × Option Bfp)
    (bfp_to_blob : Option Bfp → Int × Option (List Nat) × Int) (x y : sqlite3_value) :
    (sqlite3_value_type x ≠ SQLITE_BLOB →
        bfp_length_f api x = ⟨[], [sqlite3_result.error_code SQLITE_MISMATCH]⟩
        ∧ bfp_weight_f api x = ⟨[], [sqlite3_result.error_code SQLITE_MISMATCH]⟩
        ∧ bfp_tanimoto_f api x y = ⟨[], [sqlite3_result.error_code SQLITE_MISMATCH]⟩
        ∧ bfp_dice_f api x y = ⟨[], [sqlite3_result.error_code SQLITE_MISMATCH]⟩
        ∧ MOL_TO_BFP (fetch_mol_arg tk) func bfp_to_blob x
            = ⟨[], [sqlite3_result.error_code SQLITE_MISMATCH]⟩
        ∧ MOL_TO_MORGAN_BFP coerce (fetch_mol_arg tk) mfunc bfp_to_blob x y
            = ⟨[], [sqlite3_result.error_code SQLITE_MISMATCH]⟩)
    ∧ (∀ (b : List Nat) (p : Option Bfp), x = .blob b →
        api.blob_to_bfp b (b.length : Int) = (SQLITE_OK, p) →
        sqlite3_value_type y ≠ SQLITE_BLOB →
        bfp_tanimoto_f api x y
            = ⟨[Call.blob_to_bfp, Call.free_bfp], [sqlite3_result.error_code SQLITE_MISMATCH]⟩
        ∧ bfp_dice_f api x y
            = ⟨[Call.blob_to_bfp, Call.free_bfp], [sqlite3_result.error_code SQLITE_MISMATCH]⟩)
    ∧ (sqlite3_value_type x ≠ SQLITE_INTEGER ∨ sqlite3_value_type y ≠ SQLITE_INTEGER →
        bfp_dummy_f h coerce MAX_BITSTRING_SIZE x y
          = ⟨[], [sqlite3_result.error_code SQLITE_MISMATCH]⟩) := by
  refine ⟨?_, ?_, ?_⟩
  · intro hx
    have hf : fetch_bfp_arg api x none = (SQLITE_MISMATCH, none, []) := by
      unfold fetch_bfp_arg
      rw [if_neg hx]
    have hm : fetch_mol_arg tk x = (SQLITE_MISMATCH, none, []) := by
      unfold fetch_mol_arg
      rw [if_neg hx]
    have hne : SQLITE_MISMATCH ≠ SQLITE_OK := by decide
    refine ⟨?_, ?_, ?_, ?_, ?_, ?_⟩
    · unfold bfp_length_f
      simp only [hf, if_neg hne]
    · unfold bfp_weight_f
      simp only [hf, if_neg hne]
    · unfold bfp_tanimoto_f COMPARE_BITSTRINGS COMPARE_BITSTRINGS_end
      simp [hf, hne]
    · unfold bfp_dice_f COMPARE_BITSTRINGS COMPARE_BITSTRINGS_end
      simp [hf, hne]
    · unfold MOL_TO_BFP MOL_TO_BFP_end
      simp [hm, hne]
    · unfold MOL_TO_MORGAN_BFP MOL_TO_BFP_end
      simp [hm, hne]
  · intro b p hx hb hy
    subst hx
    have hf1 : fetch_bfp_arg api (.blob b) none = (SQLITE_OK, p, [Call.blob_to_bfp]) := by
      unfold fetch_bfp_arg
      simp [sqlite3_value_type, sqlite3_value_bytes, sqlite3_value_blob, hb]
    have hf2 : fetch_bfp_arg api y none = (SQLITE_MISMATCH, none, []) := by
      unfold fetch_bfp_arg
      rw [if_neg hy]
    have hne : SQLITE_MISMATCH ≠ SQLITE_OK := by decide
    constructor
    · unfold bfp_tanimoto_f COMPARE_BITSTRINGS COMPARE_BITSTRINGS_end
      simp [hf1, hf2, hne]
    · unfold bfp_dice_f COMPARE_BITSTRINGS COMPARE_BITSTRINGS_end
      simp [hf1, hf2, hne]
  · intro hxy
    unfold bfp_dummy_f
    by_cases hx : sqlite3_value_type x ≠ SQLITE_INTEGER
    · rw [if_pos hx]
    · rw [if_neg hx]
      have hy : sqlite3_value_type y ≠ SQLITE_INTEGER := by
        rcases hxy with h1 | h1
        · exact absurd h1 hx
        · exact h1
      rw [if_pos hy]

theorem type_mismatch_left_to_right_witness :
    sqlite3_value_type (.text "CCO") ≠ SQLITE_BLOB
    ∧ bfp_length_f api_bits (.text "CCO")
        = ⟨[], [sqlite3_result.error_code SQLITE_MISMATCH]⟩
    ∧ MOL_TO_BFP (fetch_mol_arg tk_chain) (fun m => gen_toy m 0) pack_toy (.text "CCO")
        = ⟨[], [sqlite3_result.error_code SQLITE_MISMATCH]⟩ :=
  ⟨by decide,
    ((type_mismatch_left_to_right api_bits tk_chain heap_ok coerce_zero 256
      (fun m => gen_toy m 0) gen_toy pack_toy (.text "CCO") .null).1 (by decide)).1,
    ((type_mismatch_left_to_right api_bits tk_chain heap_ok coerce_zero 256
      (fun m => gen_toy m 0) gen_toy pack_toy (.text "CCO") .null).1 (by decide)).2.2.2.2.1⟩

end Chemicalite
